import Mathlib

/-!
Shallow embedding of the popgun POP3 session engine (src/popgun.go).

The Go source concatenates the client/server/printer code (lines 1-228),
two generations of the command handlers (an identity-valued user contract
at lines 230-1032, modelled in namespace IdCmds, and a string-user
contract at lines 1034-1591, modelled at top level; the latter matches
the Client struct and the handle loop at lines 57-153), and the package
tests (lines 1593-1775).

Modelling conventions:
- Machine integers become unbounded Int/Nat (no arithmetic in the
  modelled handlers can overflow in the scenarios considered, and
  strconv.Atoi overflow is not modelled).
- strings.ToUpper is modelled on ASCII letters, which covers every
  command verb.
- Writes to the connection (Printer.Ok / Printer.Err / Printer.MultiLine)
  and calls into the Backend / Authorizator interfaces are recorded as an
  ordered event trace; backend results are supplied by a Backend record
  of oracles where the value none stands for a non-nil Go error.
- A Go function returning (int, error) with err nil becomes Except.ok of
  the int; a non-nil error becomes Except.error (the int returned
  alongside a non-nil error is always 0 and is ignored by the caller).
-/

namespace Popgun

/-- Session states (src/popgun.go lines 19-23): iota + 1. -/
def STATE_AUTHORIZATION : Nat := 1

/-- Second session state (src/popgun.go line 21). -/
def STATE_TRANSACTION : Nat := 2

/-- Third session state (src/popgun.go line 22). -/
def STATE_UPDATE : Nat := 3

/-- Per-connection client state (src/popgun.go lines 57-72).  The field
isTLS records whether the type assertion c.conn.(*tls.Conn) at line 101
succeeds.  Fields that the modelled code never reads (printer, logs,
command map) are omitted. -/
structure Client where
  isAlive : Bool
  currentState : Nat
  user : String
  pass : String
  lastCommand : String
  allowInsecureAuth : Bool
  isTLS : Bool
deriving DecidableEq

/-- Client.AllowAuth (src/popgun.go lines 100-103). -/
def Client.AllowAuth (c : Client) : Bool :=
  c.allowInsecureAuth || c.isTLS

/-- One observable side effect of processing a command: a reply written
through the Printer, or a call into the Backend / Authorizator. -/
inductive Event where
  | okReply (msg : String)
  | errReply (msg : String)
  | multiReply (lines : List String)
  | bStat (u : String)
  | bList (u : String)
  | bListMessage (u : String) (id : Int)
  | bRetr (u : String) (id : Int)
  | bDele (u : String) (id : Int)
  | bRset (u : String)
  | bUidl (u : String)
  | bUidlMessage (u : String) (id : Int)
  | bTop (u : String) (id : Int) (n : Int)
  | bUpdate (u : String)
  | bLock (u : String)
  | bUnlock (u : String)
  | bAuthorize (u p : String)
deriving DecidableEq

/-- Whether an event is a call into the backend or authorizator (as
opposed to a reply written to the connection). -/
def Event.isBackendCall : Event → Bool
  | .okReply _ => false
  | .errReply _ => false
  | .multiReply _ => false
  | _ => true

/-- The non-nil Go errors a handler can return to the handle loop. -/
inductive RunErr where
  | invalidState
  | authDisabled
  | invalidArgCount (n : Nat)
  | other (msg : String)
deriving DecidableEq

instance {e a : Type} [DecidableEq e] [DecidableEq a] : DecidableEq (Except e a) := fun x y => by
  cases x <;> cases y
  case error.error u v => exact decidable_of_iff (u = v) (by simp)
  case error.ok u v => exact isFalse (by simp)
  case ok.error u v => exact isFalse (by simp)
  case ok.ok u v => exact decidable_of_iff (u = v) (by simp)

/-- Result of one Executable.Run call: the returned (int, error) pair,
the client as mutated through the pointer receiver, and the ordered
trace of replies and backend calls the handler performed. -/
structure RunResult (K : Type) where
  res : Except RunErr Nat
  client : K
  events : List Event
deriving DecidableEq

/-- Backend interface (src/popgun.go lines 36-49), as result oracles;
none models a non-nil Go error. -/
structure Backend where
  stat : String → Option (Int × Int)
  list : String → Option (List Int)
  listMessage : String → Int → Option (Bool × Int)
  retr : String → Int → Option String
  dele : String → Int → Option Unit
  rset : String → Option Unit
  uidl : String → Option (List String)
  uidlMessage : String → Int → Option (Bool × String)
  top : String → Int → Int → Option (List String)
  update : String → Option Unit
  lock : String → Option Unit
  unlock : String → Option Unit

/-- The external collaborators of a session: the backend and the
authorizator in the boolean shape used by the string-user PassCommand
(src/popgun.go line 1227). -/
structure Env where
  backend : Backend
  authorize : String → String → Bool

/-- Characters removed by strings.Trim(input, cutset) for the cutset
used in Client.parseInput (src/popgun.go line 150). -/
def isTrimChar (c : Char) : Bool :=
  c == '\r' || c == ' ' || c == '\n'

/-- strings.Trim: remove leading and trailing cutset characters. -/
def trimEnds (l : List Char) : List Char :=
  ((l.dropWhile isTrimChar).reverse.dropWhile isTrimChar).reverse

/-- strings.Split(s, sep) for a one-character separator: every single
occurrence of the separator splits, empty fields are kept, and the empty
input yields one empty field. -/
def splitChar (sep : Char) : List Char → List (List Char)
  | [] => [[]]
  | c :: rest =>
    if c = sep then [] :: splitChar sep rest
    else
      match splitChar sep rest with
      | [] => [[c]]
      | h :: t => (c :: h) :: t

/-- strings.ToUpper restricted to ASCII (every command verb is ASCII). -/
def upperChar (c : Char) : Char :=
  if 'a' ≤ c ∧ c ≤ 'z' then Char.ofNat (c.toNat - 32) else c

/-- Client.parseInput (src/popgun.go lines 149-153): trim the cutset of
carriage return, space and newline from both ends, split on single
spaces, uppercase the first token, keep the rest verbatim. -/
def parseInput (input : String) : String × List String :=
  match splitChar ' ' (trimEnds input.data) with
  | [] => ("", [])
  | h :: t => (String.mk (h.map upperChar), t.map String.mk)

/-- strings.Trim(line, cr) used in Printer.MultiLine: removes the
carriage return from both ends of the line. -/
def trimCR (s : String) : String :=
  String.mk (((s.data.dropWhile (· == '\r')).reverse.dropWhile (· == '\r')).reverse)

/-- Whether a line begins with the termination octet, as tested by
strings.HasPrefix(line, dot) in Printer.MultiLine. -/
def startsDot (s : String) : Bool :=
  match s.data with
  | [] => false
  | c :: _ => c == '.'

/-- Printer.MultiLine (src/popgun.go lines 218-228): the exact bytes
written onto the connection for a list of content lines. -/
def multiLine (msgs : List String) : String :=
  String.join (msgs.map (fun line =>
    let line := trimCR line
    if startsDot line then "." ++ line ++ "\r\n" else line ++ "\r\n")) ++ ".\r\n"

/-- Value of one decimal digit character, none otherwise. -/
def digitVal (c : Char) : Option Nat :=
  if '0' ≤ c ∧ c ≤ '9' then some (c.toNat - '0'.toNat) else none

/-- Accumulate a decimal digit string left to right. -/
def digitsVal : List Char → Nat → Option Nat
  | [], acc => some acc
  | c :: rest, acc =>
    match digitVal c with
    | none => none
    | some d => digitsVal rest (acc * 10 + d)

/-- strconv.Atoi: optional sign followed by at least one digit (64-bit
overflow is not modelled). -/
def atoi (s : String) : Option Int :=
  match s.data with
  | [] => none
  | '+' :: ds => if ds = [] then none else (digitsVal ds 0).map Int.ofNat
  | '-' :: ds => if ds = [] then none else (digitsVal ds 0).map (fun n => -(n : Int))
  | ds => (digitsVal ds 0).map Int.ofNat

/-- QuitCommand.Run, string-user generation (src/popgun.go lines
1100-1120): set isAlive false; in TRANSACTION, call Update and, only if
Update returned nil, call Unlock; return the original state, or UPDATE
from TRANSACTION. -/
def QuitCommand.run (e : Env) (c : Client) (args : List String) : RunResult Client :=
  let c := { c with isAlive := false }
  if c.currentState = STATE_TRANSACTION then
    match e.backend.update c.user with
    | none => ⟨.error (.other "Error updating maildrop"), c, [.bUpdate c.user]⟩
    | some _ =>
      match e.backend.unlock c.user with
      | none => ⟨.error (.other "Error unlocking maildrop"), c,
          [.bUpdate c.user, .bUnlock c.user, .errReply "Server was unable to unlock maildrop"]⟩
      | some _ => ⟨.ok STATE_UPDATE, c,
          [.bUpdate c.user, .bUnlock c.user, .okReply "Goodbye"]⟩
  else ⟨.ok c.currentState, c, [.okReply "Goodbye"]⟩

/-- UserCommand.Run, string-user generation (src/popgun.go lines
1164-1174): AUTHORIZATION only, exactly one argument, stores the mailbox
name in the user field.  Note there is no auth-allowed check in this
generation of the handler. -/
def UserCommand.run (e : Env) (c : Client) (args : List String) : RunResult Client :=
  if c.currentState ≠ STATE_AUTHORIZATION then ⟨.error .invalidState, c, []⟩
  else
    match args with
    | [name] => ⟨.ok STATE_AUTHORIZATION, { c with user := name }, [.okReply ""]⟩
    | _ => ⟨.error (.invalidArgCount args.length), c, []⟩

/-- PassCommand.Run, string-user generation (src/popgun.go lines
1215-1241): AUTHORIZATION only; a soft error (nil handler error) when
the previous successfully executed command was not USER; one argument;
boolean Authorize on (user, pass); Lock on success. -/
def PassCommand.run (e : Env) (c : Client) (args : List String) : RunResult Client :=
  if c.currentState ≠ STATE_AUTHORIZATION then ⟨.error .invalidState, c, []⟩
  else if c.lastCommand ≠ "USER" then
    ⟨.ok STATE_AUTHORIZATION, c,
      [.errReply "PASS can be executed only directly after USER command"]⟩
  else
    match args with
    | [p] =>
      let c := { c with pass := p }
      if !(e.authorize c.user c.pass) then
        ⟨.ok STATE_AUTHORIZATION, c,
          [.bAuthorize c.user c.pass, .errReply "Invalid username or password"]⟩
      else
        match e.backend.lock c.user with
        | none => ⟨.error (.other "Error locking maildrop"), c,
            [.bAuthorize c.user c.pass, .bLock c.user,
             .errReply "Server was unable to lock maildrop"]⟩
        | some _ => ⟨.ok STATE_TRANSACTION, c,
            [.bAuthorize c.user c.pass, .bLock c.user,
             .okReply "User Successfully Logged on"]⟩
    | _ => ⟨.error (.invalidArgCount args.length), c, []⟩

/-- StatCommand.Run, string-user generation (src/popgun.go lines
1285-1296). -/
def StatCommand.run (e : Env) (c : Client) (args : List String) : RunResult Client :=
  if c.currentState ≠ STATE_TRANSACTION then ⟨.error .invalidState, c, []⟩
  else
    match e.backend.stat c.user with
    | none => ⟨.error (.other "Error calling Stat"), c, [.bStat c.user]⟩
    | some (messages, octets) =>
      ⟨.ok STATE_TRANSACTION, c,
        [.bStat c.user, .okReply (toString messages ++ " " ++ toString octets)]⟩

/-- ListCommand.Run, string-user generation (src/popgun.go lines
1366-1400): with an argument, a scan listing for that message or the
soft error for a nonexistent one; without, the count reply and the
multi-line scan listing in store order. -/
def ListCommand.run (e : Env) (c : Client) (args : List String) : RunResult Client :=
  if c.currentState ≠ STATE_TRANSACTION then ⟨.error .invalidState, c, []⟩
  else
    match args with
    | arg :: _ =>
      match atoi arg with
      | none => ⟨.error (.other "Invalid argument for LIST"), c,
          [.errReply ("Invalid argument: " ++ arg)]⟩
      | some msgId =>
        match e.backend.listMessage c.user msgId with
        | none => ⟨.error (.other "Error calling LIST"), c, [.bListMessage c.user msgId]⟩
        | some (ex, octets) =>
          if !ex then
            ⟨.ok STATE_TRANSACTION, c, [.bListMessage c.user msgId, .errReply "no such message"]⟩
          else
            ⟨.ok STATE_TRANSACTION, c,
              [.bListMessage c.user msgId, .okReply (toString msgId ++ " " ++ toString octets)]⟩
    | [] =>
      match e.backend.list c.user with
      | none => ⟨.error (.other "Error calling LIST"), c, [.bList c.user]⟩
      | some octets =>
        ⟨.ok STATE_TRANSACTION, c,
          [.bList c.user, .okReply (toString octets.length ++ " messages"),
           .multiReply (octets.enum.map (fun p => toString (p.1 + 1) ++ " " ++ toString p.2))]⟩

/-- RetrCommand.Run, string-user generation (src/popgun.go lines
1434-1457): fetch the message, split it on newline, reply +OK and the
multi-line body. -/
def RetrCommand.run (e : Env) (c : Client) (args : List String) : RunResult Client :=
  if c.currentState ≠ STATE_TRANSACTION then ⟨.error .invalidState, c, []⟩
  else
    match args with
    | [] => ⟨.error (.other "Missing argument for RETR"), c,
        [.errReply "Missing argument for RETR command"]⟩
    | arg :: _ =>
      match atoi arg with
      | none => ⟨.error (.other "Invalid argument for RETR"), c,
          [.errReply ("Invalid argument: " ++ arg)]⟩
      | some msgId =>
        match e.backend.retr c.user msgId with
        | none => ⟨.error (.other "Error calling RETR"), c, [.bRetr c.user msgId]⟩
        | some message =>
          ⟨.ok STATE_TRANSACTION, c,
            [.bRetr c.user msgId, .okReply "",
             .multiReply ((splitChar '\n' message.data).map String.mk)]⟩

/-- DeleCommand.Run, string-user generation (src/popgun.go lines
1461-1483). -/
def DeleCommand.run (e : Env) (c : Client) (args : List String) : RunResult Client :=
  if c.currentState ≠ STATE_TRANSACTION then ⟨.error .invalidState, c, []⟩
  else
    match args with
    | [] => ⟨.error (.other "Missing argument for DELE"), c,
        [.errReply "Missing argument for DELE command"]⟩
    | arg :: _ =>
      match atoi arg with
      | none => ⟨.error (.other "Invalid argument for DELE"), c,
          [.errReply ("Invalid argument: " ++ arg)]⟩
      | some msgId =>
        match e.backend.dele c.user msgId with
        | none => ⟨.error (.other "Error calling DELE"), c, [.bDele c.user msgId]⟩
        | some _ =>
          ⟨.ok STATE_TRANSACTION, c,
            [.bDele c.user msgId, .okReply ("Message " ++ toString msgId ++ " deleted")]⟩

/-- NoopCommand.Run, string-user generation (src/popgun.go lines
1487-1493). -/
def NoopCommand.run (e : Env) (c : Client) (args : List String) : RunResult Client :=
  if c.currentState ≠ STATE_TRANSACTION then ⟨.error .invalidState, c, []⟩
  else ⟨.ok STATE_TRANSACTION, c, [.okReply ""]⟩

/-- RsetCommand.Run, string-user generation (src/popgun.go lines
1497-1509). -/
def RsetCommand.run (e : Env) (c : Client) (args : List String) : RunResult Client :=
  if c.currentState ≠ STATE_TRANSACTION then ⟨.error .invalidState, c, []⟩
  else
    match e.backend.rset c.user with
    | none => ⟨.error (.other "Error calling RSET"), c, [.bRset c.user]⟩
    | some _ => ⟨.ok STATE_TRANSACTION, c, [.bRset c.user, .okReply ""]⟩

/-- UidlCommand.Run, string-user generation (src/popgun.go lines
1513-1547). -/
def UidlCommand.run (e : Env) (c : Client) (args : List String) : RunResult Client :=
  if c.currentState ≠ STATE_TRANSACTION then ⟨.error .invalidState, c, []⟩
  else
    match args with
    | arg :: _ =>
      match atoi arg with
      | none => ⟨.error (.other "Invalid argument for UIDL"), c,
          [.errReply ("Invalid argument: " ++ arg)]⟩
      | some msgId =>
        match e.backend.uidlMessage c.user msgId with
        | none => ⟨.error (.other "Error calling UIDL"), c, [.bUidlMessage c.user msgId]⟩
        | some (ex, uid) =>
          if !ex then
            ⟨.ok STATE_TRANSACTION, c, [.bUidlMessage c.user msgId, .errReply "no such message"]⟩
          else
            ⟨.ok STATE_TRANSACTION, c,
              [.bUidlMessage c.user msgId, .okReply (toString msgId ++ " " ++ uid)]⟩
    | [] =>
      match e.backend.uidl c.user with
      | none => ⟨.error (.other "Error calling UIDL"), c, [.bUidl c.user]⟩
      | some uids =>
        ⟨.ok STATE_TRANSACTION, c,
          [.bUidl c.user, .okReply (toString uids.length ++ " messages"),
           .multiReply (uids.enum.map (fun p => toString (p.1 + 1) ++ " " ++ p.2))]⟩

/-- CapaCommand.Run, string-user generation (src/popgun.go lines
1551-1559): +OK, then the capability lines USER and UIDL; returns the
current state in every state. -/
def CapaCommand.run (e : Env) (c : Client) (args : List String) : RunResult Client :=
  ⟨.ok c.currentState, c, [.okReply "", .multiReply ["USER", "UIDL"]]⟩

/-- TopCommand.Run, string-user generation (src/popgun.go lines
1563-1591): exactly two numeric arguments, then the backend Top call and
a multi-line reply. -/
def TopCommand.run (e : Env) (c : Client) (args : List String) : RunResult Client :=
  if c.currentState ≠ STATE_TRANSACTION then ⟨.error .invalidState, c, []⟩
  else
    match args with
    | [a1, a2] =>
      match atoi a1 with
      | none => ⟨.error (.other "Invalid argument for TOP"), c,
          [.errReply ("Invalid argument: " ++ a1)]⟩
      | some msgId =>
        match atoi a2 with
        | none => ⟨.error (.other "Invalid argument for TOP"), c,
            [.errReply ("Invalid argument: " ++ a2)]⟩
        | some n =>
          match e.backend.top c.user msgId n with
          | none => ⟨.error (.other "Error calling TOP"), c, [.bTop c.user msgId n]⟩
          | some lines =>
            ⟨.ok STATE_TRANSACTION, c, [.bTop c.user msgId n, .okReply "", .multiReply lines]⟩
    | _ => ⟨.error (.invalidArgCount args.length), c, []⟩

namespace IdCmds

/-- Client state as used by the identity-valued generation of the
handlers (src/popgun.go lines 230-1032): USER stores the mailbox name in
a username field, and the user field holds the identity returned by
Authorize (none models a nil identity). -/
structure Client where
  isAlive : Bool
  currentState : Nat
  username : String
  user : Option String
  lastCommand : String
  allowInsecureAuth : Bool
  isTLS : Bool
deriving DecidableEq

/-- Client.AllowAuth as called by this generation of the handlers
(src/popgun.go lines 100-103). -/
def AllowAuth (c : Client) : Bool :=
  c.allowInsecureAuth || c.isTLS

/-- UserCommand.Run, identity generation (src/popgun.go lines 361-374):
AUTHORIZATION only, then the AllowAuth gate, then exactly one argument;
stores the mailbox name in the username field. -/
def UserCommand.run (c : Client) (args : List String) : RunResult Client :=
  if c.currentState ≠ STATE_AUTHORIZATION then ⟨.error .invalidState, c, []⟩
  else if !(AllowAuth c) then ⟨.error .authDisabled, c, []⟩
  else
    match args with
    | [name] => ⟨.ok STATE_AUTHORIZATION, { c with username := name }, [.okReply ""]⟩
    | _ => ⟨.error (.invalidArgCount args.length), c, []⟩

/-- PassCommand.Run, identity generation (src/popgun.go lines 415-447):
AUTHORIZATION only, then the AllowAuth gate, then the lastCommand check,
then exactly one argument; Authorize(conn, username, password) yields an
identity or an error (none), the identity is stored in the user field
and the username field is cleared in either case, and Lock is called on
success. -/
def PassCommand.run (a : String → String → Option String) (b : Backend)
    (c : Client) (args : List String) : RunResult Client :=
  if c.currentState ≠ STATE_AUTHORIZATION then ⟨.error .invalidState, c, []⟩
  else if !(AllowAuth c) then ⟨.error .authDisabled, c, []⟩
  else if c.lastCommand ≠ "USER" then
    ⟨.ok STATE_AUTHORIZATION, c,
      [.errReply "PASS can be executed only directly after USER command"]⟩
  else
    match args with
    | [password] =>
      let res := a c.username password
      let name := c.username
      let c := { c with user := res, username := "" }
      match res with
      | none => ⟨.ok STATE_AUTHORIZATION, c,
          [.bAuthorize name password, .errReply "Invalid username or password"]⟩
      | some u =>
        match b.lock u with
        | none => ⟨.error (.other "Error locking maildrop"), c,
            [.bAuthorize name password, .bLock u,
             .errReply "Server was unable to lock maildrop"]⟩
        | some _ => ⟨.ok STATE_TRANSACTION, c,
            [.bAuthorize name password, .bLock u,
             .okReply "User Successfully Logged on"]⟩
    | _ => ⟨.error (.invalidArgCount args.length), c, []⟩

/-- CapaCommand.Run, identity generation (src/popgun.go lines 952-960):
+OK, then the capability lines USER, UIDL and TOP; returns the current
state in every state. -/
def CapaCommand.run (c : Client) (args : List String) : RunResult Client :=
  ⟨.ok c.currentState, c, [.okReply "", .multiReply ["USER", "UIDL", "TOP"]]⟩

end IdCmds

/-- The twelve registered command verbs (src/popgun.go lines 75-88). -/
inductive Cmd where
  | QUIT | USER | PASS | STAT | LIST | RETR | DELE | NOOP | RSET | UIDL | CAPA | TOP
deriving DecidableEq

/-- The command registry built in newClient (src/popgun.go lines 75-88):
a fixed mapping from uppercase verb to handler. -/
def commands (verb : String) : Option Cmd :=
  if verb = "QUIT" then some .QUIT
  else if verb = "USER" then some .USER
  else if verb = "PASS" then some .PASS
  else if verb = "STAT" then some .STAT
  else if verb = "LIST" then some .LIST
  else if verb = "RETR" then some .RETR
  else if verb = "DELE" then some .DELE
  else if verb = "NOOP" then some .NOOP
  else if verb = "RSET" then some .RSET
  else if verb = "UIDL" then some .UIDL
  else if verb = "CAPA" then some .CAPA
  else if verb = "TOP" then some .TOP
  else none

/-- Dispatch to the string-user generation of the handlers, the one
type-consistent with the Client struct and the handle loop. -/
def runCmd (cmd : Cmd) (e : Env) (c : Client) (args : List String) : RunResult Client :=
  match cmd with
  | .QUIT => QuitCommand.run e c args
  | .USER => UserCommand.run e c args
  | .PASS => PassCommand.run e c args
  | .STAT => StatCommand.run e c args
  | .LIST => ListCommand.run e c args
  | .RETR => RetrCommand.run e c args
  | .DELE => DeleCommand.run e c args
  | .NOOP => NoopCommand.run e c args
  | .RSET => RsetCommand.run e c args
  | .UIDL => UidlCommand.run e c args
  | .CAPA => CapaCommand.run e c args
  | .TOP => TopCommand.run e c args

/-- One iteration of the Client.handle loop body for a successfully read
line (src/popgun.go lines 131-145): parse, look up the verb, run the
handler; on a handler error write the generic error reply and keep the
client as the handler left it; on success record lastCommand and apply
the returned state. -/
def step (e : Env) (c : Client) (input : String) : Client × List Event :=
  let pr := parseInput input
  match commands pr.1 with
  | none => (c, [Event.errReply ("Invalid command " ++ pr.1)])
  | some cmd =>
    let r := runCmd cmd e c pr.2
    match r.res with
    | Except.error _ => (r.client, r.events ++ [Event.errReply ("Error executing command " ++ pr.1)])
    | Except.ok st => ({ r.client with lastCommand := pr.1, currentState := st }, r.events)

/-- The Client.handle read loop (src/popgun.go lines 115-146) run on a
finite list of successfully read lines followed by a read failure
(end-of-stream, transport error, or deadline expiry): lines are consumed
while isAlive holds, and the failing read performs the best-effort
Unlock when the user field is nonempty. -/
def runSession (e : Env) (c : Client) : List String → Client × List Event
  | [] =>
    if c.isAlive = true then
      if c.user ≠ "" then (c, [Event.bUnlock c.user]) else (c, [])
    else (c, [])
  | input :: rest =>
    if c.isAlive = true then
      let s := step e c input
      let r := runSession e s.1 rest
      (r.1, s.2 ++ r.2)
    else (c, [])

/-- The same loop without the final failing read: only the line-handling
iterations. -/
def steps (e : Env) (c : Client) : List String → Client × List Event
  | [] => (c, [])
  | input :: rest =>
    if c.isAlive = true then
      let s := step e c input
      let r := steps e s.1 rest
      (r.1, s.2 ++ r.2)
    else (c, [])

/-- A fresh client as built by newClient (src/popgun.go lines 90-97) at
the point where handle has set isAlive (line 110). -/
def initClient (allowInsecure : Bool) (tls : Bool) : Client :=
  ⟨true, STATE_AUTHORIZATION, "", "", "", allowInsecure, tls⟩

/-- The DummyBackend fixture (src/unnamed/part_000), with the identity
rendered as its fixed username string. -/
def dummyBackend : Backend where
  stat := fun _ => some (5, 50)
  list := fun _ => some [10, 10, 10, 10, 10]
  listMessage := fun _ id => if id > 4 then some (false, 0) else some (true, 10)
  retr := fun _ _ => some "this is dummy message"
  dele := fun _ _ => some ()
  rset := fun _ => some ()
  uidl := fun _ => some ["1", "2", "3", "4", "5"]
  uidlMessage := fun _ id => if id > 4 then some (false, "") else some (true, toString (id + 1))
  top := fun _ _ _ => some []
  update := fun _ => some ()
  lock := fun _ => some ()
  unlock := fun _ => some ()

/-- Environment whose authorizator accepts every credential pair. -/
def acceptEnv : Env :=
  ⟨dummyBackend, fun _ _ => true⟩

/-- Environment whose backend fails the Update (commit) call. -/
def failUpdateEnv : Env :=
  ⟨{ dummyBackend with update := fun _ => none }, fun _ _ => true⟩

/-- A client in TRANSACTION state with an authenticated user, as left by
a successful USER and PASS exchange. -/
def transClient : Client :=
  { initClient true false with currentState := STATE_TRANSACTION, user := "bob", lastCommand := "PASS" }

/-- A client in AUTHORIZATION state whose previous successfully executed
command was STAT rather than USER. -/
def stalePassClient : Client :=
  { initClient true false with lastCommand := "STAT" }

/-- An identity-generation client on a plaintext connection with
insecure authentication disabled, in AUTHORIZATION state after USER. -/
def idPlainClient : IdCmds.Client :=
  ⟨true, STATE_AUTHORIZATION, "bob", none, "USER", false, false⟩

set_option maxHeartbeats 2000000 in
lemma commands_user_inv (v : String) (h : commands v = some Cmd.USER) : v = "USER" := by
  unfold commands at h
  repeat' split at h
  all_goals first
    | assumption
    | exact Cmd.noConfusion (Option.some.inj h)
    | exact Option.noConfusion h

lemma runCmd_currentState (cmd : Cmd) (e : Env) (c : Client) (args : List String) :
    (runCmd cmd e c args).client.currentState = c.currentState := by
  cases cmd <;>
    simp only [runCmd, QuitCommand.run, UserCommand.run, PassCommand.run, StatCommand.run,
      ListCommand.run, RetrCommand.run, DeleCommand.run, NoopCommand.run, RsetCommand.run,
      UidlCommand.run, CapaCommand.run, TopCommand.run] <;>
    (repeat' split) <;> rfl

lemma runCmd_user_field (cmd : Cmd) (e : Env) (c : Client) (args : List String)
    (h : cmd ≠ Cmd.USER) : (runCmd cmd e c args).client.user = c.user := by
  cases cmd <;> first
    | exact absurd rfl h
    | (simp only [runCmd, QuitCommand.run, PassCommand.run, StatCommand.run,
        ListCommand.run, RetrCommand.run, DeleCommand.run, NoopCommand.run, RsetCommand.run,
        UidlCommand.run, CapaCommand.run, TopCommand.run]
       repeat' split
       all_goals rfl)

lemma runCmd_ok_state (cmd : Cmd) (e : Env) (c : Client) (args : List String) (st : Nat)
    (h : (runCmd cmd e c args).res = Except.ok st) :
    (st = c.currentState ∨
     (c.currentState = STATE_AUTHORIZATION ∧ st = STATE_TRANSACTION) ∨
     (c.currentState = STATE_TRANSACTION ∧ st = STATE_UPDATE)) ∧
    (cmd = Cmd.USER → st = c.currentState) ∧
    (cmd = Cmd.PASS → st ≠ STATE_TRANSACTION → st = c.currentState) := by
  cases cmd <;>
    simp only [runCmd, QuitCommand.run, UserCommand.run, PassCommand.run, StatCommand.run,
      ListCommand.run, RetrCommand.run, DeleCommand.run, NoopCommand.run, RsetCommand.run,
      UidlCommand.run, CapaCommand.run, TopCommand.run] at h <;>
    (repeat' split at h) <;>
    simp_all [STATE_AUTHORIZATION, STATE_TRANSACTION, STATE_UPDATE]

lemma runSession_fst (e : Env) (c : Client) (lines : List String) :
    (runSession e c lines).1 = (steps e c lines).1 := by
  induction lines generalizing c with
  | nil =>
    by_cases ha : c.isAlive = true <;> by_cases hu : c.user ≠ "" <;>
      simp [runSession, steps, ha, hu]
  | cons input rest ih =>
    by_cases ha : c.isAlive = true
    · simp only [runSession, steps, ha, if_pos]
      exact ih (step e c input).1
    · simp [runSession, steps, ha]

lemma runSession_snd (e : Env) (c : Client) (lines : List String) :
    (runSession e c lines).2 = (steps e c lines).2 ++
      (if (steps e c lines).1.isAlive = true ∧ (steps e c lines).1.user ≠ ""
       then [Event.bUnlock (steps e c lines).1.user] else []) := by
  induction lines generalizing c with
  | nil =>
    by_cases ha : c.isAlive = true <;> by_cases hu : c.user ≠ "" <;>
      simp [runSession, steps, ha, hu]
  | cons input rest ih =>
    by_cases ha : c.isAlive = true
    · simp only [runSession, steps, ha, if_pos]
      rw [ih (step e c input).1, List.append_assoc]
    · simp [runSession, steps, ha]

lemma step_user_field (e : Env) (d : Client) (input : String)
    (h : (parseInput input).1 ≠ "USER") : (step e d input).1.user = d.user := by
  unfold step
  cases hc : commands (parseInput input).1 with
  | none => simp only [hc]
  | some cmd =>
    have hcmd : cmd ≠ Cmd.USER := fun he => h (commands_user_inv _ (he ▸ hc))
    have hu := runCmd_user_field cmd e d (parseInput input).2 hcmd
    cases hr : (runCmd cmd e d (parseInput input).2).res with
    | error err => simp only [hc, hr]; exact hu
    | ok st => simp only [hc, hr]; exact hu

/-- Claim C1.  The code, not the claim, decides this one: at the failing
input (QUIT in TRANSACTION with a backend whose Update fails) the
handler returns the error right after the Update call, so Unlock is
never attempted, contradicting the claim and the RFC excerpt quoted in
the handler's own doc comment.  The other conjuncts record what does
hold: on a successful commit the order is Update then Unlock then the
Goodbye reply with next state UPDATE, and QUIT sets isAlive false in
every state and on every path. -/
theorem claim_c1_quit_commit_unlock :
    QuitCommand.run failUpdateEnv transClient [] =
      ⟨Except.error (RunErr.other "Error updating maildrop"),
       { transClient with isAlive := false }, [Event.bUpdate "bob"]⟩ ∧
    (∀ ev ∈ (QuitCommand.run failUpdateEnv transClient []).events, ev ≠ Event.bUnlock "bob") ∧
    QuitCommand.run acceptEnv transClient [] =
      ⟨Except.ok STATE_UPDATE, { transClient with isAlive := false },
       [Event.bUpdate "bob", Event.bUnlock "bob", Event.okReply "Goodbye"]⟩ ∧
    (∀ (e : Env) (c : Client) (args : List String),
      (QuitCommand.run e c args).client.isAlive = false) := by
  refine ⟨by decide, by decide, by decide, ?_⟩
  intro e c args
  simp only [QuitCommand.run]
  repeat' split
  all_goals rfl

/-- Claim C2, counterexample.  After the lines USER bob then STAT, the
command immediately preceding PASS is STAT (STAT failed with an
invalid-state error, which does not update lastCommand, so lastCommand
is still USER), and the following PASS with valid credentials
authenticates: the session reaches TRANSACTION with user bob.  This
refutes the claim as stated for the immediately-preceding command. -/
theorem claim_c2_cex :
    (steps acceptEnv (initClient true false) ["USER bob", "STAT"]).1.lastCommand = "USER" ∧
    (steps acceptEnv (initClient true false) ["USER bob", "STAT"]).1.currentState =
      STATE_AUTHORIZATION ∧
    (steps acceptEnv (initClient true false) ["USER bob", "STAT", "PASS pw"]).1.currentState =
      STATE_TRANSACTION ∧
    (steps acceptEnv (initClient true false) ["USER bob", "STAT", "PASS pw"]).1.user = "bob" := by
  decide

/-- Claim C2, amended.  A PASS command processed while the session's
lastCommand (the most recent successfully executed command) is not USER
never authenticates: the state and the user field are unchanged and
every reply written is an error reply, regardless of credential
validity. -/
theorem claim_c2_amended :
    ∀ (e : Env) (c : Client) (input : String),
      (parseInput input).1 = "PASS" → c.lastCommand ≠ "USER" →
      (step e c input).1.currentState = c.currentState ∧
      (step e c input).1.user = c.user ∧
      ∀ ev ∈ (step e c input).2, ∃ m, ev = Event.errReply m := by
  intro e c input hv hl
  unfold step
  cases hc : commands (parseInput input).1 with
  | none => rw [hv] at hc; exact absurd hc (by decide)
  | some cmd =>
    have hcmd : cmd = Cmd.PASS := by
      rw [hv] at hc
      have hcp : commands "PASS" = some Cmd.PASS := by decide
      exact (Option.some.inj (hcp.symm.trans hc)).symm
    subst hcmd
    simp only [hc, runCmd, PassCommand.run]
    by_cases hs : c.currentState = STATE_AUTHORIZATION
    · simp [hs, hl]
    · simp [hs]

/-- Claim C2, witness for the amended theorem at a concrete input: a
client whose last successfully executed command was STAT processing the
line PASS secret. -/
theorem claim_c2_witness :
    ((parseInput "PASS secret").1 = "PASS" ∧ stalePassClient.lastCommand ≠ "USER") ∧
    ((step acceptEnv stalePassClient "PASS secret").1.currentState =
        stalePassClient.currentState ∧
     (step acceptEnv stalePassClient "PASS secret").1.user = stalePassClient.user ∧
     ∀ ev ∈ (step acceptEnv stalePassClient "PASS secret").2, ∃ m, ev = Event.errReply m) :=
  ⟨⟨by decide, by decide⟩,
   claim_c2_amended acceptEnv stalePassClient "PASS secret" (by decide) (by decide)⟩

/-- Claim C3.  In every state other than TRANSACTION, each of STAT,
LIST, RETR, DELE, NOOP, RSET, UIDL and TOP returns the invalid-state
handler error, leaves the client unchanged, writes no reply and
performs no backend call (the event trace is empty). -/
theorem claim_c3_invalid_state :
    ∀ (e : Env) (c : Client) (args : List String) (cmd : Cmd),
      cmd ∈ [Cmd.STAT, Cmd.LIST, Cmd.RETR, Cmd.DELE, Cmd.NOOP, Cmd.RSET, Cmd.UIDL, Cmd.TOP] →
      c.currentState ≠ STATE_TRANSACTION →
      runCmd cmd e c args = ⟨Except.error RunErr.invalidState, c, []⟩ := by
  intro e c args cmd hmem hst
  fin_cases hmem <;>
    simp [runCmd, StatCommand.run, ListCommand.run, RetrCommand.run, DeleCommand.run,
      NoopCommand.run, RsetCommand.run, UidlCommand.run, TopCommand.run, hst]

/-- Claim C3, witness: STAT in AUTHORIZATION state. -/
theorem claim_c3_witness :
    (Cmd.STAT ∈ [Cmd.STAT, Cmd.LIST, Cmd.RETR, Cmd.DELE, Cmd.NOOP, Cmd.RSET, Cmd.UIDL, Cmd.TOP] ∧
     (initClient true false).currentState ≠ STATE_TRANSACTION) ∧
    runCmd Cmd.STAT acceptEnv (initClient true false) [] =
      ⟨Except.error RunErr.invalidState, initClient true false, []⟩ :=
  ⟨⟨by decide, by decide⟩,
   claim_c3_invalid_state acceptEnv (initClient true false) [] Cmd.STAT (by decide) (by decide)⟩

/-- Claim C4, counterexample.  On a plaintext connection with insecure
authentication disabled, Client.AllowAuth is false, yet the string-user
generation of the handlers (src/popgun.go lines 1164-1174 and
1215-1241) permits USER, storing the mailbox name, and lets PASS
authenticate all the way to TRANSACTION: no auth-allowed check is
performed there, refuting the claim over every invocation of USER or
PASS in the file. -/
theorem claim_c4_cex :
    Client.AllowAuth (initClient false false) = false ∧
    UserCommand.run acceptEnv (initClient false false) ["bob"] =
      ⟨Except.ok STATE_AUTHORIZATION, { initClient false false with user := "bob" },
       [Event.okReply ""]⟩ ∧
    (PassCommand.run acceptEnv
        { initClient false false with user := "alice", lastCommand := "USER" } ["pw"]).res =
      Except.ok STATE_TRANSACTION := by
  decide

/-- Claim C4, amended.  For the identity-generation handlers
(src/popgun.go lines 361-374 and 415-447), in AUTHORIZATION state USER
and PASS fail with the authentication-disabled error exactly when
neither insecure authentication is configured nor the transport is TLS;
the gate is a function of only the current configuration and transport
flags, so it is re-evaluated on each invocation rather than cached. -/
theorem claim_c4_amended :
    ∀ (a : String → String → Option String) (b : Backend) (c : IdCmds.Client) (args : List String),
      c.currentState = STATE_AUTHORIZATION →
      (((IdCmds.UserCommand.run c args).res = Except.error RunErr.authDisabled ↔
          ¬(c.allowInsecureAuth = true ∨ c.isTLS = true)) ∧
       ((IdCmds.PassCommand.run a b c args).res = Except.error RunErr.authDisabled ↔
          ¬(c.allowInsecureAuth = true ∨ c.isTLS = true)) ∧
       (∀ d : IdCmds.Client, d.allowInsecureAuth = c.allowInsecureAuth → d.isTLS = c.isTLS →
          IdCmds.AllowAuth d = IdCmds.AllowAuth c)) := by
  intro a b c args hs
  have hgate : IdCmds.AllowAuth c = (c.allowInsecureAuth || c.isTLS) := rfl
  refine ⟨?_, ?_, ?_⟩
  · by_cases hall : c.allowInsecureAuth = true ∨ c.isTLS = true
    · have hg : IdCmds.AllowAuth c = true := by
        rw [hgate]; rcases hall with h | h <;> simp [h]
      simp only [IdCmds.UserCommand.run, hs, hg]
      constructor
      · intro h
        exfalso
        repeat' split at h
        all_goals first
          | exact Except.noConfusion h
          | (injection h with h2; exact RunErr.noConfusion h2)
          | simp_all
      · intro h; exact absurd hall h
    · have hg : IdCmds.AllowAuth c = false := by
        rw [hgate]; push_neg at hall
        simp [hall.1, hall.2]
      simp [IdCmds.UserCommand.run, hs, hg, hall]
  · by_cases hall : c.allowInsecureAuth = true ∨ c.isTLS = true
    · have hg : IdCmds.AllowAuth c = true := by
        rw [hgate]; rcases hall with h | h <;> simp [h]
      simp only [IdCmds.PassCommand.run, hs, hg]
      constructor
      · intro h
        exfalso
        repeat' split at h
        all_goals first
          | exact Except.noConfusion h
          | (injection h with h2; exact RunErr.noConfusion h2)
          | simp_all
      · intro h; exact absurd hall h
    · have hg : IdCmds.AllowAuth c = false := by
        rw [hgate]; push_neg at hall
        simp [hall.1, hall.2]
      simp [IdCmds.PassCommand.run, hs, hg, hall]
  · intro d h1 h2
    simp [IdCmds.AllowAuth, h1, h2]

/-- Claim C4, witness for the amended theorem: an identity-generation
client on a plaintext connection with insecure authentication disabled,
in AUTHORIZATION state. -/
theorem claim_c4_witness :
    idPlainClient.currentState = STATE_AUTHORIZATION ∧
    (((IdCmds.UserCommand.run idPlainClient ["pw"]).res = Except.error RunErr.authDisabled ↔
        ¬(idPlainClient.allowInsecureAuth = true ∨ idPlainClient.isTLS = true)) ∧
     ((IdCmds.PassCommand.run (fun _ _ => some "bob") dummyBackend idPlainClient ["pw"]).res =
        Except.error RunErr.authDisabled ↔
        ¬(idPlainClient.allowInsecureAuth = true ∨ idPlainClient.isTLS = true)) ∧
     (∀ d : IdCmds.Client, d.allowInsecureAuth = idPlainClient.allowInsecureAuth →
        d.isTLS = idPlainClient.isTLS → IdCmds.AllowAuth d = IdCmds.AllowAuth idPlainClient)) :=
  ⟨by decide,
   claim_c4_amended (fun _ _ => some "bob") dummyBackend idPlainClient ["pw"] (by decide)⟩

/-- Claim C5, counterexample.  A session that runs only USER bob (no
PASS, so no authentication, no Authorize and no Lock call ever happens)
and then hits a read failure still invokes the backend Unlock for bob:
the only backend call in the whole trace is that Unlock.  This refutes
the claim that unlock happens iff a PASS previously succeeded. -/
theorem claim_c5_cex :
    (runSession acceptEnv (initClient true false) ["USER bob"]).2 =
      [Event.okReply "", Event.bUnlock "bob"] ∧
    (runSession acceptEnv (initClient true false) ["USER bob"]).1.currentState =
      STATE_AUTHORIZATION ∧
    ∀ ev ∈ (runSession acceptEnv (initClient true false) ["USER bob"]).2,
      Event.isBackendCall ev = true → ev = Event.bUnlock "bob" := by
  decide

/-- Claim C5, amended.  On a read failure the session performs the
best-effort Unlock exactly when the loop is still alive and the user
field is nonempty (the session trace is the line-handling trace followed
by that conditional Unlock), and the user field is only ever written by
the USER handler: a step whose verb is not USER preserves it.  Hence
unlock-on-read-failure keys on a successful USER, not on a successful
PASS. -/
theorem claim_c5_amended :
    ∀ (e : Env) (c : Client) (lines : List String),
      ((runSession e c lines).1 = (steps e c lines).1 ∧
       (runSession e c lines).2 = (steps e c lines).2 ++
         (if (steps e c lines).1.isAlive = true ∧ (steps e c lines).1.user ≠ ""
          then [Event.bUnlock (steps e c lines).1.user] else [])) ∧
      (∀ (d : Client) (input : String), (parseInput input).1 ≠ "USER" →
        (step e d input).1.user = d.user) := by
  intro e c lines
  exact ⟨⟨runSession_fst e c lines, runSession_snd e c lines⟩,
    fun d input h => step_user_field e d input h⟩

/-- Claim C5, witness for the amended theorem: a NOOP line does not
change the user field of a TRANSACTION-state client. -/
theorem claim_c5_witness :
    (parseInput "NOOP").1 ≠ "USER" ∧
    (step acceptEnv transClient "NOOP").1.user = transClient.user :=
  ⟨by decide, (claim_c5_amended acceptEnv transClient []).2 transClient "NOOP" (by decide)⟩

/-- Claim C6.  Printer.MultiLine on the lines normal, .dotline and
..double writes exactly the bytes of the byte-stuffed CRLF-terminated
block followed by the lone dot-CRLF terminator. -/
theorem claim_c6_multiline_bytes :
    multiLine ["normal", ".dotline", "..double"] =
      "normal\r\n..dotline\r\n...double\r\n.\r\n" := by
  decide

/-- Claim C7.  parseInput uppercases the verb and keeps argument case,
and trailing spaces are trimmed so a trailing-space line yields no
arguments. -/
theorem claim_c7_parse :
    parseInput "comm ARG" = ("COMM", ["ARG"]) ∧
    parseInput "COMMAND1   " = ("COMMAND1", []) := by
  decide

/-- Claim C8, counterexample.  The string-user generation of CAPA
(src/popgun.go lines 1551-1559) announces only USER and UIDL: TOP is
missing from its capability list, refuting the claim over every CAPA
implementation in the file. -/
theorem claim_c8_cex :
    (CapaCommand.run acceptEnv (initClient true false) []).events =
      [Event.okReply "", Event.multiReply ["USER", "UIDL"]] ∧
    "TOP" ∉ ["USER", "UIDL"] := by
  decide

/-- Claim C8, amended.  The identity-generation CAPA (src/popgun.go
lines 952-960) in every session state writes +OK followed by the
multi-line capability list USER, UIDL, TOP, leaves the client unchanged
and returns the current state. -/
theorem claim_c8_amended :
    ∀ (c : IdCmds.Client) (args : List String),
      IdCmds.CapaCommand.run c args =
        ⟨Except.ok c.currentState, c, [Event.okReply "", Event.multiReply ["USER", "UIDL", "TOP"]]⟩ ∧
      "USER" ∈ ["USER", "UIDL", "TOP"] ∧ "UIDL" ∈ ["USER", "UIDL", "TOP"] ∧
      "TOP" ∈ ["USER", "UIDL", "TOP"] := by
  intro c args
  exact ⟨rfl, by decide, by decide, by decide⟩

/-- Claim C9.  One loop iteration never moves the state backward: the
new state equals the old one, or the step is AUTHORIZATION to
TRANSACTION, or TRANSACTION to UPDATE; a USER line never changes the
state (so a failed USER stays in AUTHORIZATION), and a PASS line that
does not reach TRANSACTION leaves the state unchanged (so a failed PASS
stays in AUTHORIZATION). -/
theorem claim_c9_forward_only :
    ∀ (e : Env) (c : Client) (input : String),
      ((step e c input).1.currentState = c.currentState ∨
       (c.currentState = STATE_AUTHORIZATION ∧
        (step e c input).1.currentState = STATE_TRANSACTION) ∨
       (c.currentState = STATE_TRANSACTION ∧
        (step e c input).1.currentState = STATE_UPDATE)) ∧
      ((parseInput input).1 = "USER" → (step e c input).1.currentState = c.currentState) ∧
      ((parseInput input).1 = "PASS" → (step e c input).1.currentState ≠ STATE_TRANSACTION →
        (step e c input).1.currentState = c.currentState) := by
  intro e c input
  unfold step
  cases hc : commands (parseInput input).1 with
  | none => simp [hc]
  | some cmd =>
    simp only [hc]
    cases hr : (runCmd cmd e c (parseInput input).2).res with
    | error err =>
      simp only [hr]
      exact ⟨Or.inl (runCmd_currentState cmd e c (parseInput input).2),
        fun _ => runCmd_currentState cmd e c (parseInput input).2,
        fun _ _ => runCmd_currentState cmd e c (parseInput input).2⟩
    | ok st =>
      simp only [hr]
      have h := runCmd_ok_state cmd e c (parseInput input).2 st hr
      refine ⟨h.1, fun hv => ?_, fun hv hne => ?_⟩
      · rw [hv] at hc
        have hcu : commands "USER" = some Cmd.USER := by decide
        exact h.2.1 (Option.some.inj (hcu.symm.trans hc)).symm
      · rw [hv] at hc
        have hcp : commands "PASS" = some Cmd.PASS := by decide
        exact h.2.2 (Option.some.inj (hcp.symm.trans hc)).symm hne

/-- Claim C9, witness: a USER line processed by a fresh client leaves
the state unchanged. -/
theorem claim_c9_witness :
    (parseInput "USER alice").1 = "USER" ∧
    (step acceptEnv (initClient true false) "USER alice").1.currentState =
      (initClient true false).currentState :=
  ⟨by decide,
   (claim_c9_forward_only acceptEnv (initClient true false) "USER alice").2.1 (by decide)⟩

/-- Claim C10.  parseInput splits on every single space, so USER
followed by two spaces and bob parses to verb USER with the two
arguments empty-string and bob; the USER handler then rejects the two
arguments with the argument-count error, and the whole loop iteration
leaves the client unchanged, writing only the generic error reply. -/
theorem claim_c10_double_space :
    parseInput "USER  bob" = ("USER", ["", "bob"]) ∧
    (UserCommand.run acceptEnv (initClient true false) ["", "bob"]).res =
      Except.error (RunErr.invalidArgCount 2) ∧
    (step acceptEnv (initClient true false) "USER  bob").1 = initClient true false ∧
    (step acceptEnv (initClient true false) "USER  bob").2 =
      [Event.errReply "Error executing command USER"] := by
  decide

end Popgun
